import Mathlib

/-!
# EiE firmware core: system clock, super loop and LED driver

A shallow embedding of

* `firmware_ascii/application/main.c` (the globals and the super loop of `main`),
* `firmware_ascii/bsp/eief1-pcb-01.c` (`SystemSleep`),
* `firmware_common/drivers/leds.c` (`LedOn`, `LedInitialize`, `LedRunActiveState`,
  `LedSM_Idle`, `LedSM_Error`).

Machine words (`u32`, `u16`, `u8`) are natural numbers; an operation that can overflow
is reduced modulo its width.  The globals of the three files form one record, `System`.
Constants, macros and types that the sources take from `configuration.h` and the board
headers are parameters of the functions that use them:

* `_SYSTEM_SLEEPING` (a `u32` flag mask),
* `U8_TOTAL_LEDS` (a `u8` constant),
* `G_asBspLedConfigurations` (the board's LED table).
-/

namespace EiE

/-! ## Machine words -/

/-- Number of values of a `u32`. -/
def U32_MOD : Nat := 4294967296

/-- Number of values of a `u8`. -/
def U8_MOD : Nat := 256

/-- The C operator `~` on a `u32`: all 32 bits are inverted. -/
def u32Not (x : Nat) : Nat := x ^^^ 4294967295

/-! ## Observable actions

`WATCHDOG_BONE`, `HEARTBEAT_OFF` and `HEARTBEAT_ON` are macros of the board header and
`kill_x_cycles` is an external assembly routine.  Each call is recorded as an event,
together with the values the three system globals have when it is made. -/

/-- The actions of `main` and `SystemSleep` whose bodies are outside the C sources. -/
inductive Event where
  | WATCHDOG_BONE
  | HEARTBEAT_OFF
  | HEARTBEAT_ON
  | kill_x_cycles (u32Cycles : Nat)
deriving DecidableEq, Repr

/-- An event with the values of the system globals at the moment it happens. -/
structure Observation where
  event : Event
  time1ms : Nat
  time1s : Nat
  flags : Nat
deriving DecidableEq, Repr

/-! ## LED driver types (from their use in `leds.c`) -/

/-- Modelled from the spec: the enumerators of `LedModeType` are declared in a header
that is not among the sources; `leds.c` names `LED_NORMAL_MODE` only.  The spec (§3)
gives the modes Immediate, Blink and Pwm. -/
inductive LedModeType where
  | LED_NORMAL_MODE
  | LED_BLINK_MODE
  | LED_PWM_MODE
deriving DecidableEq, Repr

/-- The rate `LED_0HZ = 0` of `LedRateType` (file header of `leds.c`). -/
def LED_0HZ : Nat := 0

/-- Electrical polarity of an LED: `LedOn` tests `eActiveState == LED_ACTIVE_HIGH`. -/
inductive LedActiveType where
  | LED_ACTIVE_LOW
  | LED_ACTIVE_HIGH
deriving DecidableEq, Repr

/-- One entry of `G_asBspLedConfigurations`.  `ePort` is the offset, in words, from a
register of PIOA to the same register of the LED's port. -/
structure LedConfigurationType where
  u32BitPosition : Nat
  ePort : Nat
  eActiveState : LedActiveType
deriving DecidableEq, Repr

/-- One entry of `Led_asControl`. -/
structure LedControlType where
  eMode : LedModeType
  eRate : Nat
  u16Count : Nat
deriving DecidableEq, Repr

/-- The functions of `leds.c` that `Led_StateMachine` can point to.  The pointer itself
is an `Option`: `none` is the null pointer the static holds until `LedInitialize`. -/
inductive LedStateType where
  | LedSM_Idle
  | LedSM_Error
deriving DecidableEq, Repr

/-- The two output registers of a parallel I/O controller that `LedOn` writes. -/
inductive PioRegister where
  | PIO_SODR
  | PIO_CODR
deriving DecidableEq, Repr

/-- The target of `*pu32OnAddress`: a register of PIOA plus a word offset. -/
structure PioAddress where
  register : PioRegister
  portOffset : Nat
deriving DecidableEq, Repr

/-! ## The globals -/

/-- The globals of `main.c` and `leds.c`, the output lines of the PIO controllers
(one word of line levels per port offset) and the record of observable actions. -/
@[ext]
structure System where
  G_u32SystemTime1ms : Nat
  G_u32SystemTime1s : Nat
  G_u32SystemFlags : Nat
  Led_StateMachine : Option LedStateType
  Led_asControl : Nat → LedControlType
  outputLines : Nat → Nat
  trace : List Observation

/-- Record an event with the current values of the system globals. -/
def emit (e : Event) (st : System) : System :=
  { st with trace := st.trace ++
      [{ event := e, time1ms := st.G_u32SystemTime1ms, time1s := st.G_u32SystemTime1s,
         flags := st.G_u32SystemFlags }] }

/-- The state at reset: the initialisers of `main.c`, the zeroed statics of `leds.c`
(`Led_StateMachine` is null), all output lines low and nothing observed. -/
def resetState : System where
  G_u32SystemTime1ms := 0
  G_u32SystemTime1s := 0
  G_u32SystemFlags := 0
  Led_StateMachine := none
  Led_asControl := fun _ => { eMode := LedModeType.LED_NORMAL_MODE, eRate := 0, u16Count := 0 }
  outputLines := fun _ => 0
  trace := []

/-! ## `eief1-pcb-01.c` -/

/-- The function `SystemSleep` of `eief1-pcb-01.c`. -/
def SystemSleep (_SYSTEM_SLEEPING : Nat) (st : System) : System :=
  -- G_u32SystemFlags |= _SYSTEM_SLEEPING;
  let st1 := { st with G_u32SystemFlags := st.G_u32SystemFlags ||| _SYSTEM_SLEEPING }
  -- kill_x_cycles(48000);
  let st2 := emit (Event.kill_x_cycles 48000) st1
  -- G_u32SystemFlags &= ~_SYSTEM_SLEEPING;
  let st3 := { st2 with G_u32SystemFlags := st2.G_u32SystemFlags &&& u32Not _SYSTEM_SLEEPING }
  -- G_u32SystemTime1ms++;
  let st4 := { st3 with G_u32SystemTime1ms := (st3.G_u32SystemTime1ms + 1) % U32_MOD }
  -- if( (G_u32SystemTime1ms % 1000) == 0) G_u32SystemTime1s++;
  if st4.G_u32SystemTime1ms % 1000 = 0 then
    { st4 with G_u32SystemTime1s := (st4.G_u32SystemTime1s + 1) % U32_MOD }
  else
    st4

/-- The state after `n` consecutive calls of `SystemSleep`. -/
def SystemSleepTimes (_SYSTEM_SLEEPING : Nat) : Nat → System → System
  | 0, st => st
  | n + 1, st => SystemSleep _SYSTEM_SLEEPING (SystemSleepTimes _SYSTEM_SLEEPING n st)

/-! ## `main.c` -/

/-- The `do { SystemSleep(); } while(G_u32SystemFlags & _SYSTEM_SLEEPING);` of `main`.
The first argument bounds the number of passes; `none` means the bound was reached. -/
def main_sleepLoop (_SYSTEM_SLEEPING : Nat) : Nat → System → Option System
  | 0, _ => none
  | fuel + 1, st =>
    let st1 := SystemSleep _SYSTEM_SLEEPING st
    if st1.G_u32SystemFlags &&& _SYSTEM_SLEEPING ≠ 0 then
      main_sleepLoop _SYSTEM_SLEEPING fuel st1
    else
      some st1

/-- One pass through the body of the super loop `while(1)` of `main`. -/
def main_superLoopBody (_SYSTEM_SLEEPING : Nat) (fuel : Nat) (st : System) : Option System :=
  -- WATCHDOG_BONE();
  let st1 := emit Event.WATCHDOG_BONE st
  -- HEARTBEAT_OFF();
  let st2 := emit Event.HEARTBEAT_OFF st1
  -- do { SystemSleep(); } while(G_u32SystemFlags & _SYSTEM_SLEEPING);
  match main_sleepLoop _SYSTEM_SLEEPING fuel st2 with
  | none => none
  | some st3 =>
    -- HEARTBEAT_ON();
    some (emit Event.HEARTBEAT_ON st3)

/-- The first `n` passes of the super loop of `main`. -/
def main_superLoop (_SYSTEM_SLEEPING : Nat) (fuel : Nat) : Nat → System → Option System
  | 0, st => some st
  | n + 1, st =>
    match main_superLoop _SYSTEM_SLEEPING fuel n st with
    | none => none
    | some st1 => main_superLoopBody _SYSTEM_SLEEPING fuel st1

/-- The number of `kill_x_cycles` calls in a trace: one per call of `SystemSleep`. -/
def sleepCount (tr : List Observation) : Nat :=
  (tr.filter (fun o => match o.event with
    | Event.kill_x_cycles _ => true
    | _ => false)).length

/-- The millisecond counter values at which the watchdog was fed. -/
def feedTimes (tr : List Observation) : List Nat :=
  (tr.filter (fun o => decide (o.event = Event.WATCHDOG_BONE))).map (fun o => o.time1ms)

/-! ## `leds.c` -/

/-- The effect of the store `*pu32OnAddress = u32Value` on the output lines.  A word
written to `PIO_SODR` drives the lines named by its set bits high and a word written
to `PIO_CODR` drives them low; the other lines of the port keep their level, and so
do the lines of every other port. -/
def storeU32 (pu32Address : PioAddress) (u32Value : Nat) (lines : Nat → Nat) : Nat → Nat :=
  fun port =>
    if port = pu32Address.portOffset then
      match pu32Address.register with
      | PioRegister.PIO_SODR => lines port ||| u32Value
      | PioRegister.PIO_CODR => lines port ^^^ (lines port &&& u32Value)
    else
      lines port

/-- Assignment to one element of an array. -/
def setElem {α : Type} (a : Nat → α) (i : Nat) (x : α) : Nat → α :=
  fun j => if j = i then x else a j

/-- Whether the lines of an LED are at the level at which the LED is lit: high for an
active-high LED, low for an active-low one. -/
def ledIsOn (cfg : LedConfigurationType) (lines : Nat → Nat) : Prop :=
  match cfg.eActiveState with
  | LedActiveType.LED_ACTIVE_HIGH => lines cfg.ePort &&& cfg.u32BitPosition = cfg.u32BitPosition
  | LedActiveType.LED_ACTIVE_LOW => lines cfg.ePort &&& cfg.u32BitPosition = 0

instance (cfg : LedConfigurationType) (lines : Nat → Nat) : Decidable (ledIsOn cfg lines) := by
  unfold ledIsOn
  cases cfg.eActiveState <;> exact inferInstance

/-- The address `LedOn` computes: `PIO_SODR` of the LED's port for an active-high LED,
`PIO_CODR` of that port otherwise. -/
def LedOn_address (cfg : LedConfigurationType) : PioAddress :=
  if cfg.eActiveState = LedActiveType.LED_ACTIVE_HIGH then
    -- pu32OnAddress = (u32*)(&(AT91C_BASE_PIOA->PIO_SODR) + ...ePort);
    { register := PioRegister.PIO_SODR, portOffset := cfg.ePort }
  else
    -- pu32OnAddress = (u32*)(&(AT91C_BASE_PIOA->PIO_CODR) + ...ePort);
    { register := PioRegister.PIO_CODR, portOffset := cfg.ePort }

/-- The function `LedOn` of `leds.c`. -/
def LedOn (G_asBspLedConfigurations : Nat → LedConfigurationType) (eLED_ : Nat)
    (st : System) : System :=
  -- (u8)eLED_
  let u8Led := eLED_ % U8_MOD
  let pu32OnAddress := LedOn_address (G_asBspLedConfigurations u8Led)
  -- *pu32OnAddress = G_asBspLedConfigurations[(u8)eLED_].u32BitPosition;
  let u32Value := (G_asBspLedConfigurations u8Led).u32BitPosition
  let st1 := { st with outputLines := storeU32 pu32OnAddress u32Value st.outputLines }
  -- Led_asControl[(u8)eLED_].eMode = LED_NORMAL_MODE;
  let ctl := { st1.Led_asControl u8Led with eMode := LedModeType.LED_NORMAL_MODE }
  { st1 with Led_asControl := setElem st1.Led_asControl u8Led ctl }

/-- The loop `for(u8 i = 0; i < U8_TOTAL_LEDS; i++)` of `LedInitialize`, entered with
the counter at `i`.  The first argument bounds the number of tests of the loop
condition; `none` means the bound was reached. -/
def LedInitialize_loop (U8_TOTAL_LEDS : Nat) :
    Nat → Nat → (Nat → LedControlType) → Option (Nat → LedControlType)
  | 0, _, _ => none
  | fuel + 1, i, ctl =>
    if i < U8_TOTAL_LEDS then
      -- Led_asControl[i].eMode = LED_NORMAL_MODE;
      let ctl1 := setElem ctl i { ctl i with eMode := LedModeType.LED_NORMAL_MODE }
      -- Led_asControl[i].eRate = LED_0HZ;
      let ctl2 := setElem ctl1 i { ctl1 i with eRate := LED_0HZ }
      -- Led_asControl[i].u16Count = 0;
      let ctl3 := setElem ctl2 i { ctl2 i with u16Count := 0 }
      -- i++
      LedInitialize_loop U8_TOTAL_LEDS fuel ((i + 1) % U8_MOD) ctl3
    else
      some ctl

/-- The function `LedInitialize` of `leds.c`. -/
def LedInitialize (U8_TOTAL_LEDS : Nat) (fuel : Nat) (st : System) : Option System :=
  match LedInitialize_loop U8_TOTAL_LEDS fuel 0 st.Led_asControl with
  | none => none
  | some ctl =>
    -- if( 1 ) Led_StateMachine = LedSM_Idle; else Led_StateMachine = LedSM_Error;
    some { st with
      Led_asControl := ctl,
      Led_StateMachine :=
        if (1 : Nat) ≠ 0 then some LedStateType.LedSM_Idle
        else some LedStateType.LedSM_Error }

/-- The function `LedSM_Idle` of `leds.c`: its body is empty. -/
def LedSM_Idle (st : System) : System := st

/-- The function `LedSM_Error` of `leds.c`: its body is empty. -/
def LedSM_Error (st : System) : System := st

/-- A control array for the examples: channel 0 blinks with 250 ticks left, channel 1
is in PWM mode with 7 ticks left, every other channel is in normal mode. -/
def blinkingControl : Nat → LedControlType :=
  fun i =>
    if i = 0 then { eMode := LedModeType.LED_BLINK_MODE, eRate := 500, u16Count := 250 }
    else if i = 1 then { eMode := LedModeType.LED_PWM_MODE, eRate := 20, u16Count := 7 }
    else { eMode := LedModeType.LED_NORMAL_MODE, eRate := 0, u16Count := 0 }

/-- An LED table for the examples: channel 0 is active-high on bit 17 of the port at
offset 128, every other channel is active-low on bit 10 of the port at offset 0. -/
def exampleConfigurations : Nat → LedConfigurationType :=
  fun i =>
    if i = 0 then
      { u32BitPosition := 131072, ePort := 128, eActiveState := LedActiveType.LED_ACTIVE_HIGH }
    else
      { u32BitPosition := 1024, ePort := 0, eActiveState := LedActiveType.LED_ACTIVE_LOW }

/-- A state for the examples: the control array is `blinkingControl` and
`Led_StateMachine` points to `LedSM_Idle`; the clock, the flags and the lines are
zero.  No function of `leds.c` stores a mode other than `LED_NORMAL_MODE`, so the
driver does not reach this state by itself: it is a value of the state's type. -/
def blinkingState : System :=
  { resetState with
    Led_asControl := blinkingControl,
    Led_StateMachine := some LedStateType.LedSM_Idle }

/-- A state for the examples: the millisecond counter is about to wrap and the flags
already have bit 30 (used as the SLEEPING mask in the examples) and bits 0 and 2 set. -/
def sleepingState : System :=
  { resetState with
    G_u32SystemTime1ms := 4294967295,
    G_u32SystemTime1s := 4294967,
    G_u32SystemFlags := 1073741829 }

/-! ## Theorems -/

/-! ### `SystemSleep`, field by field -/

theorem SystemSleep_time1ms (sl : Nat) (st : System) :
    (SystemSleep sl st).G_u32SystemTime1ms = (st.G_u32SystemTime1ms + 1) % 4294967296 := by
  unfold SystemSleep emit
  simp only [U32_MOD]
  split <;> rfl

theorem SystemSleep_time1s (sl : Nat) (st : System) :
    (SystemSleep sl st).G_u32SystemTime1s =
      if (st.G_u32SystemTime1ms + 1) % 4294967296 % 1000 = 0
      then (st.G_u32SystemTime1s + 1) % 4294967296 else st.G_u32SystemTime1s := by
  unfold SystemSleep emit
  simp only [U32_MOD]
  split <;> rfl

theorem SystemSleep_flags (sl : Nat) (st : System) :
    (SystemSleep sl st).G_u32SystemFlags = (st.G_u32SystemFlags ||| sl) &&& u32Not sl := by
  unfold SystemSleep emit
  simp only [U32_MOD]
  split <;> rfl

theorem SystemSleep_trace (sl : Nat) (st : System) :
    (SystemSleep sl st).trace = st.trace ++
      [{ event := Event.kill_x_cycles 48000, time1ms := st.G_u32SystemTime1ms,
         time1s := st.G_u32SystemTime1s, flags := st.G_u32SystemFlags ||| sl }] := by
  unfold SystemSleep emit
  simp only [U32_MOD]
  split <;> rfl

/-- One tick keeps the closed form of the seconds counter: arithmetic of the step. -/
theorem clock_step_arith (k : Nat) :
    (k + 1) % 4294967296 = (k % 4294967296 + 1) % 4294967296 ∧
    ((k + 1) / 4294967296 * 4294968 + (k + 1) % 4294967296 / 1000) % 4294967296 =
      if (k % 4294967296 + 1) % 4294967296 % 1000 = 0
      then ((k / 4294967296 * 4294968 + k % 4294967296 / 1000) % 4294967296 + 1) % 4294967296
      else (k / 4294967296 * 4294968 + k % 4294967296 / 1000) % 4294967296 := by
  have hr : k % 4294967296 < 4294967296 := Nat.mod_lt _ (by decide)
  rcases Nat.lt_or_ge (k % 4294967296 + 1) 4294967296 with hlt | hge
  · have h1 : (k + 1) / 4294967296 = k / 4294967296 := by omega
    have h2 : (k + 1) % 4294967296 = k % 4294967296 + 1 := by omega
    have h3 : (k % 4294967296 + 1) % 4294967296 = k % 4294967296 + 1 := Nat.mod_eq_of_lt hlt
    rw [h1, h2, h3]
    refine ⟨rfl, ?_⟩
    generalize k / 4294967296 = q
    generalize k % 4294967296 = r
    split
    · have h4 : (r + 1) / 1000 = r / 1000 + 1 := by omega
      rw [h4]
      omega
    · have h4 : (r + 1) / 1000 = r / 1000 := by omega
      rw [h4]
  · have h0 : k % 4294967296 = 4294967295 := by omega
    have h1 : (k + 1) / 4294967296 = k / 4294967296 + 1 := by omega
    have h2 : (k + 1) % 4294967296 = 0 := by omega
    rw [h1, h2, h0]
    refine ⟨by decide, ?_⟩
    generalize k / 4294967296 = q
    have h5 : (4294967295 + 1) % 4294967296 % 1000 = 0 := by decide
    rw [if_pos h5]
    have h6 : 4294967295 / 1000 = 4294967 := by decide
    have h7 : 0 / 1000 = 0 := by decide
    rw [h6, h7]
    omega

/-- The clock after `n` calls of `SystemSleep` from a zeroed clock, in closed form. -/
theorem SystemSleepTimes_clock (sl n : Nat) (st : System)
    (hms : st.G_u32SystemTime1ms = 0) (hs : st.G_u32SystemTime1s = 0) :
    (SystemSleepTimes sl n st).G_u32SystemTime1ms = n % 4294967296 ∧
    (SystemSleepTimes sl n st).G_u32SystemTime1s =
      (n / 4294967296 * 4294968 + n % 4294967296 / 1000) % 4294967296 := by
  induction n with
  | zero => simp [SystemSleepTimes, hms, hs]
  | succ k ih =>
    obtain ⟨ih1, ih2⟩ := ih
    obtain ⟨a1, a2⟩ := clock_step_arith k
    simp only [SystemSleepTimes, SystemSleep_time1ms, SystemSleep_time1s, ih1, ih2]
    exact ⟨a1.symm, a2.symm⟩

theorem SystemSleep_frame (sl : Nat) (st : System) :
    (SystemSleep sl st).Led_StateMachine = st.Led_StateMachine ∧
    (SystemSleep sl st).Led_asControl = st.Led_asControl ∧
    (SystemSleep sl st).outputLines = st.outputLines := by
  unfold SystemSleep emit
  simp only [U32_MOD]
  split <;> exact ⟨rfl, rfl, rfl⟩

/-! ### Bits of a `u32` -/

theorem testBit_u32_high (x i : Nat) (hx : x < 4294967296) (hi : 32 ≤ i) :
    x.testBit i = false := by
  apply Nat.testBit_lt_two_pow
  calc x < 2 ^ 32 := by norm_num; exact hx
    _ ≤ 2 ^ i := Nat.pow_le_pow_right (by decide) hi

theorem testBit_u32Not (x i : Nat) :
    (u32Not x).testBit i = (x.testBit i ^^ decide (i < 32)) := by
  unfold u32Not
  have h : 4294967295 = 2 ^ 32 - 1 := by norm_num
  rw [Nat.testBit_xor, h, Nat.testBit_two_pow_sub_one]

/-- Setting and then clearing a mask clears it. -/
theorem or_and_u32Not_and (f sl : Nat) (hsl : sl < 4294967296) :
    ((f ||| sl) &&& u32Not sl) &&& sl = 0 := by
  apply Nat.eq_of_testBit_eq
  intro i
  rw [Nat.testBit_and, Nat.testBit_and, Nat.testBit_or, testBit_u32Not, Nat.zero_testBit]
  by_cases hi : i < 32
  · cases f.testBit i <;> cases sl.testBit i <;> simp [hi]
  · rw [testBit_u32_high sl i hsl (by omega)]
    simp

/-- Setting and then clearing a mask is clearing it. -/
theorem or_and_u32Not (f sl : Nat) (hsl : sl < 4294967296) :
    (f ||| sl) &&& u32Not sl = f &&& u32Not sl := by
  apply Nat.eq_of_testBit_eq
  intro i
  rw [Nat.testBit_and, Nat.testBit_and, Nat.testBit_or, testBit_u32Not]
  by_cases hi : i < 32
  · cases f.testBit i <;> cases sl.testBit i <;> simp [hi]
  · rw [testBit_u32_high sl i hsl (by omega)]
    simp

/-- Clearing a mask keeps the bits of a `u32` outside the mask. -/
theorem testBit_and_u32Not (f sl i : Nat) (hf : f < 4294967296)
    (hi : sl.testBit i = false) :
    (f &&& u32Not sl).testBit i = f.testBit i := by
  rw [Nat.testBit_and, testBit_u32Not, hi]
  by_cases h32 : i < 32
  · simp [h32]
  · rw [testBit_u32_high f i hf (by omega)]
    simp

/-! ### The super loop, step by step -/

theorem main_sleepLoop_once (sl fuel : Nat) (st : System) (hsl : sl < 4294967296) :
    main_sleepLoop sl (fuel + 1) st = some (SystemSleep sl st) := by
  have h : (SystemSleep sl st).G_u32SystemFlags &&& sl = 0 := by
    rw [SystemSleep_flags]
    exact or_and_u32Not_and _ _ hsl
  simp [main_sleepLoop, h]

theorem main_superLoopBody_eq (sl fuel : Nat) (st : System) (hsl : sl < 4294967296) :
    main_superLoopBody sl (fuel + 1) st =
      some (emit Event.HEARTBEAT_ON
        (SystemSleep sl (emit Event.HEARTBEAT_OFF (emit Event.WATCHDOG_BONE st)))) := by
  unfold main_superLoopBody
  simp only [main_sleepLoop_once sl fuel _ hsl]

theorem sleepCount_append (a b : List Observation) :
    sleepCount (a ++ b) = sleepCount a + sleepCount b := by
  simp [sleepCount, List.filter_append]

theorem feedTimes_append (a b : List Observation) :
    feedTimes (a ++ b) = feedTimes a ++ feedTimes b := by
  simp [feedTimes, List.filter_append]

/-- The trace of one pass of the super loop. -/
theorem main_superLoopBody_trace (sl : Nat) (st : System) :
    (emit Event.HEARTBEAT_ON
      (SystemSleep sl (emit Event.HEARTBEAT_OFF (emit Event.WATCHDOG_BONE st)))).trace =
    st.trace ++
      [{ event := Event.WATCHDOG_BONE, time1ms := st.G_u32SystemTime1ms,
         time1s := st.G_u32SystemTime1s, flags := st.G_u32SystemFlags },
       { event := Event.HEARTBEAT_OFF, time1ms := st.G_u32SystemTime1ms,
         time1s := st.G_u32SystemTime1s, flags := st.G_u32SystemFlags },
       { event := Event.kill_x_cycles 48000, time1ms := st.G_u32SystemTime1ms,
         time1s := st.G_u32SystemTime1s, flags := st.G_u32SystemFlags ||| sl },
       { event := Event.HEARTBEAT_ON,
         time1ms := (SystemSleep sl st).G_u32SystemTime1ms,
         time1s := (SystemSleep sl st).G_u32SystemTime1s,
         flags := (SystemSleep sl st).G_u32SystemFlags }] := by
  simp [emit, SystemSleep_trace, SystemSleep_time1ms, SystemSleep_time1s, SystemSleep_flags]

theorem main_superLoopBody_time1ms (sl : Nat) (st : System) :
    (emit Event.HEARTBEAT_ON
      (SystemSleep sl (emit Event.HEARTBEAT_OFF
        (emit Event.WATCHDOG_BONE st)))).G_u32SystemTime1ms =
      (st.G_u32SystemTime1ms + 1) % 4294967296 := by
  simp [emit, SystemSleep_time1ms]

/-- The first `n` passes of the super loop: they all return, the millisecond counter
advances by `n`, the watchdog is fed once per pass, one tick apart, and `SystemSleep`
runs `n` times. -/
theorem main_superLoop_run (sl fuel n : Nat) (st : System) (hsl : sl < 4294967296)
    (hms : st.G_u32SystemTime1ms < 4294967296) :
    ∃ stn, main_superLoop sl (fuel + 1) n st = some stn ∧
      stn.G_u32SystemTime1ms = (st.G_u32SystemTime1ms + n) % 4294967296 ∧
      feedTimes stn.trace = feedTimes st.trace ++
        (List.range n).map (fun k => (st.G_u32SystemTime1ms + k) % 4294967296) ∧
      sleepCount stn.trace = sleepCount st.trace + n := by
  induction n with
  | zero =>
    refine ⟨st, rfl, ?_, ?_, ?_⟩
    · exact (Nat.mod_eq_of_lt hms).symm
    · simp
    · simp
  | succ k ih =>
    obtain ⟨stk, hrun, hk, hfeed, hcount⟩ := ih
    refine ⟨emit Event.HEARTBEAT_ON
      (SystemSleep sl (emit Event.HEARTBEAT_OFF (emit Event.WATCHDOG_BONE stk))), ?_, ?_, ?_, ?_⟩
    · simp only [main_superLoop, hrun]
      exact main_superLoopBody_eq sl fuel stk hsl
    · rw [main_superLoopBody_time1ms, hk]
      omega
    · rw [main_superLoopBody_trace, feedTimes_append, hfeed, List.range_succ,
        List.map_append, List.append_assoc, hk]
      simp [feedTimes]
    · rw [main_superLoopBody_trace, sleepCount_append, hcount]
      simp [sleepCount]
      omega

/-! ### The LED driver, step by step -/

theorem LedOn_outputLines (cfgs : Nat → LedConfigurationType) (id : Nat) (st : System) :
    (LedOn cfgs id st).outputLines =
      storeU32 (LedOn_address (cfgs (id % 256))) (cfgs (id % 256)).u32BitPosition
        st.outputLines := rfl

theorem LedOn_asControl (cfgs : Nat → LedConfigurationType) (id : Nat) (st : System) :
    (LedOn cfgs id st).Led_asControl =
      setElem st.Led_asControl (id % 256)
        { st.Led_asControl (id % 256) with eMode := LedModeType.LED_NORMAL_MODE } := rfl

theorem LedOn_address_portOffset (cfg : LedConfigurationType) :
    (LedOn_address cfg).portOffset = cfg.ePort := by
  unfold LedOn_address
  split <;> rfl

theorem setElem_same {α : Type} (a : Nat → α) (i : Nat) (x : α) : setElem a i x i = x := by
  simp [setElem]

theorem setElem_other {α : Type} (a : Nat → α) (i j : Nat) (x : α) (h : j ≠ i) :
    setElem a i x j = a j := by
  simp [setElem, h]

theorem storeU32_other (a : PioAddress) (v : Nat) (lines : Nat → Nat) (p : Nat)
    (h : p ≠ a.portOffset) : storeU32 a v lines p = lines p := by
  simp [storeU32, h]

/-- The bits of a word after the bits of a mask were removed from it. -/
theorem testBit_clear (o v i : Nat) :
    (o ^^^ (o &&& v)).testBit i = (o.testBit i && !v.testBit i) := by
  rw [Nat.testBit_xor, Nat.testBit_and]
  cases o.testBit i <;> cases v.testBit i <;> rfl

theorem clear_and_self (o v : Nat) : (o ^^^ (o &&& v)) &&& v = 0 := by
  apply Nat.eq_of_testBit_eq
  intro i
  rw [Nat.testBit_and, testBit_clear, Nat.zero_testBit]
  cases o.testBit i <;> cases v.testBit i <;> rfl

theorem or_and_self (o v : Nat) : (o ||| v) &&& v = v := by
  apply Nat.eq_of_testBit_eq
  intro i
  rw [Nat.testBit_and, Nat.testBit_or]
  cases o.testBit i <;> cases v.testBit i <;> rfl

/-- A store changes no line outside the word written. -/
theorem storeU32_testBit (a : PioAddress) (v : Nat) (lines : Nat → Nat) (i : Nat)
    (h : v.testBit i = false) :
    (storeU32 a v lines a.portOffset).testBit i = (lines a.portOffset).testBit i := by
  unfold storeU32
  rw [if_pos rfl]
  cases a.register
  · simp [Nat.testBit_or, h]
  · simp only [testBit_clear, h]
    simp

/-- Storing the same word twice at the same address is storing it once. -/
theorem storeU32_twice (a : PioAddress) (v : Nat) (lines : Nat → Nat) :
    storeU32 a v (storeU32 a v lines) = storeU32 a v lines := by
  funext p
  unfold storeU32
  by_cases hp : p = a.portOffset
  · simp only [if_pos hp]
    cases a.register
    · simp only [Nat.or_assoc, Nat.or_self]
    · simp only [clear_and_self, Nat.xor_zero]
  · simp only [if_neg hp]

theorem LedOn_twice (cfgs : Nat → LedConfigurationType) (id : Nat) (st : System) :
    LedOn cfgs id (LedOn cfgs id st) = LedOn cfgs id st := by
  apply System.ext
  · rfl
  · rfl
  · rfl
  · rfl
  · rw [LedOn_asControl, LedOn_asControl]
    funext j
    by_cases hj : j = id % 256
    · subst hj
      simp [setElem]
    · simp [setElem, hj]
  · rw [LedOn_outputLines, LedOn_outputLines, storeU32_twice]
  · rfl

/-- The loop of `LedInitialize`, entered with `k` channels left: it returns within
`k + 1` tests of its condition and has reset the channels from `i` on. -/
theorem LedInitialize_loop_spec (total : Nat) (htotal : total ≤ 255) (k : Nat) :
    ∀ (fuel i : Nat) (ctl : Nat → LedControlType), i + k = total → k < fuel →
      LedInitialize_loop total fuel i ctl =
        some (fun j => if i ≤ j ∧ j < total
          then { eMode := LedModeType.LED_NORMAL_MODE, eRate := LED_0HZ, u16Count := 0 }
          else ctl j) := by
  induction k with
  | zero =>
    intro fuel i ctl hi hfuel
    obtain ⟨f, rfl⟩ : ∃ f, fuel = f + 1 := ⟨fuel - 1, by omega⟩
    have hlt : ¬ i < total := by omega
    simp only [LedInitialize_loop, if_neg hlt]
    congr 1
    funext j
    have : ¬ (i ≤ j ∧ j < total) := by omega
    rw [if_neg this]
  | succ k ih =>
    intro fuel i ctl hi hfuel
    obtain ⟨f, rfl⟩ : ∃ f, fuel = f + 1 := ⟨fuel - 1, by omega⟩
    have hlt : i < total := by omega
    have hwrap : (i + 1) % U8_MOD = i + 1 := by
      unfold U8_MOD
      omega
    simp only [LedInitialize_loop, if_pos hlt, hwrap]
    rw [ih f (i + 1) _ (by omega) (by omega)]
    congr 1
    funext j
    by_cases h1 : i + 1 ≤ j ∧ j < total
    · have h2 : i ≤ j ∧ j < total := by omega
      rw [if_pos h1, if_pos h2]
    · rw [if_neg h1]
      by_cases h3 : j = i
      · have h2 : i ≤ j ∧ j < total := by omega
        rw [if_pos h2]
        subst h3
        simp [setElem]
      · have h2 : ¬ (i ≤ j ∧ j < total) := by omega
        rw [if_neg h2]
        simp [setElem, h3]

/-- C1 (as stated, refuted): after 4294967296 calls of `SystemSleep` from the reset
state the millisecond counter has wrapped to 0 while the seconds counter is 4294968,
which is not `floor(millis / 1000)` modulo 2^32. -/
theorem SystemSleepTimes_seconds_ne_after_wrap :
    (SystemSleepTimes 1073741824 4294967296 resetState).G_u32SystemTime1ms = 0 ∧
    (SystemSleepTimes 1073741824 4294967296 resetState).G_u32SystemTime1s = 4294968 ∧
    (SystemSleepTimes 1073741824 4294967296 resetState).G_u32SystemTime1s ≠
      (SystemSleepTimes 1073741824 4294967296 resetState).G_u32SystemTime1ms / 1000
        % 4294967296 := by
  obtain ⟨h1, h2⟩ := SystemSleepTimes_clock 1073741824 4294967296 resetState rfl rfl
  rw [h1, h2]
  decide

/-- C1 (amended): for every `n < 2^32`, that is before the millisecond counter wraps
for the first time, `n` calls of `SystemSleep` from a zeroed clock leave the
millisecond counter at `n` and the seconds counter at `floor(millis / 1000)`
modulo 2^32. -/
theorem SystemSleepTimes_seconds_before_wrap (sl n : Nat) (st : System)
    (hms : st.G_u32SystemTime1ms = 0) (hs : st.G_u32SystemTime1s = 0)
    (hn : n < 4294967296) :
    (SystemSleepTimes sl n st).G_u32SystemTime1ms = n ∧
    (SystemSleepTimes sl n st).G_u32SystemTime1s =
      (SystemSleepTimes sl n st).G_u32SystemTime1ms / 1000 % 4294967296 := by
  obtain ⟨h1, h2⟩ := SystemSleepTimes_clock sl n st hms hs
  have hq : n / 4294967296 = 0 := by omega
  have hr : n % 4294967296 = n := by omega
  rw [h1, h2, hq, hr]
  refine ⟨rfl, ?_⟩
  omega

theorem SystemSleepTimes_seconds_before_wrap_witness :
    resetState.G_u32SystemTime1ms = 0 ∧ resetState.G_u32SystemTime1s = 0 ∧
    4294967295 < 4294967296 ∧
    (SystemSleepTimes 1073741824 4294967295 resetState).G_u32SystemTime1ms = 4294967295 ∧
    (SystemSleepTimes 1073741824 4294967295 resetState).G_u32SystemTime1s =
      (SystemSleepTimes 1073741824 4294967295 resetState).G_u32SystemTime1ms / 1000
        % 4294967296 :=
  ⟨rfl, rfl, by decide,
    SystemSleepTimes_seconds_before_wrap 1073741824 4294967295 resetState rfl rfl (by decide)⟩

/-- C2: one call of `SystemSleep` sets the millisecond counter to `(ms + 1) mod 2^32`;
it sets the seconds counter to `(s + 1) mod 2^32` when the new millisecond counter is
a multiple of 1000 and leaves it alone otherwise, so the seconds counter changes by 0
or by +1 (mod 2^32) in one tick. -/
theorem SystemSleep_tick (sl : Nat) (st : System) :
    (SystemSleep sl st).G_u32SystemTime1ms = (st.G_u32SystemTime1ms + 1) % 2 ^ 32 ∧
    ((SystemSleep sl st).G_u32SystemTime1ms % 1000 = 0 →
      (SystemSleep sl st).G_u32SystemTime1s = (st.G_u32SystemTime1s + 1) % 2 ^ 32) ∧
    ((SystemSleep sl st).G_u32SystemTime1ms % 1000 ≠ 0 →
      (SystemSleep sl st).G_u32SystemTime1s = st.G_u32SystemTime1s) ∧
    ((SystemSleep sl st).G_u32SystemTime1s = st.G_u32SystemTime1s ∨
      (SystemSleep sl st).G_u32SystemTime1s = (st.G_u32SystemTime1s + 1) % 2 ^ 32) := by
  rw [SystemSleep_time1ms, SystemSleep_time1s]
  norm_num
  by_cases h : (st.G_u32SystemTime1ms + 1) % 4294967296 % 1000 = 0
  · simp [h]
  · simp [h]

/-- C10: written `n = q * 2^32 + r` with `r < 2^32`, `n` calls of `SystemSleep` from a
zeroed clock leave the millisecond counter at `r` and the seconds counter at
`(q * 4294968 + floor(r / 1000)) mod 2^32`.  Within each wrap the seconds counter is
incremented at tick 4294967000, keeps that value for the next 295 ticks and is
incremented again at the wrap itself, 296 ticks later, where the millisecond counter
is 0: a full wrap contributes 4294968 increments. -/
theorem SystemSleepTimes_wrapped_clock (sl q r : Nat) (st : System)
    (hms : st.G_u32SystemTime1ms = 0) (hs : st.G_u32SystemTime1s = 0)
    (hr : r < 2 ^ 32) :
    (SystemSleepTimes sl (q * 2 ^ 32 + r) st).G_u32SystemTime1ms = r ∧
    (SystemSleepTimes sl (q * 2 ^ 32 + r) st).G_u32SystemTime1s =
      (q * 4294968 + r / 1000) % 2 ^ 32 ∧
    (SystemSleepTimes sl (q * 2 ^ 32 + 4294966999) st).G_u32SystemTime1s =
      (q * 4294968 + 4294966) % 2 ^ 32 ∧
    (∀ k, k < 296 →
      (SystemSleepTimes sl (q * 2 ^ 32 + 4294967000 + k) st).G_u32SystemTime1s =
        (q * 4294968 + 4294967) % 2 ^ 32) ∧
    (SystemSleepTimes sl (q * 2 ^ 32 + 4294967000 + 296) st).G_u32SystemTime1ms = 0 ∧
    (SystemSleepTimes sl (q * 2 ^ 32 + 4294967000 + 296) st).G_u32SystemTime1s =
      (q * 4294968 + 4294968) % 2 ^ 32 := by
  have closed : ∀ n, (SystemSleepTimes sl n st).G_u32SystemTime1ms = n % 4294967296 ∧
      (SystemSleepTimes sl n st).G_u32SystemTime1s =
        (n / 4294967296 * 4294968 + n % 4294967296 / 1000) % 4294967296 :=
    fun n => SystemSleepTimes_clock sl n st hms hs
  norm_num at hr ⊢
  refine ⟨?_, ?_, ?_, ?_, ?_, ?_⟩
  · rw [(closed _).1]; omega
  · rw [(closed _).2]
    have h1 : (q * 4294967296 + r) / 4294967296 = q := by omega
    have h2 : (q * 4294967296 + r) % 4294967296 = r := by omega
    rw [h1, h2]
  · rw [(closed _).2]
    have h1 : (q * 4294967296 + 4294966999) / 4294967296 = q := by omega
    have h2 : (q * 4294967296 + 4294966999) % 4294967296 = 4294966999 := by omega
    rw [h1, h2]
  · intro k hk
    rw [(closed _).2]
    have h1 : (q * 4294967296 + 4294967000 + k) / 4294967296 = q := by omega
    have h2 : (q * 4294967296 + 4294967000 + k) % 4294967296 = 4294967000 + k := by omega
    have h3 : (4294967000 + k) / 1000 = 4294967 := by omega
    rw [h1, h2, h3]
  · rw [(closed _).1]; omega
  · rw [(closed _).2]
    have h1 : (q * 4294967296 + 4294967000 + 296) / 4294967296 = q + 1 := by omega
    have h2 : (q * 4294967296 + 4294967000 + 296) % 4294967296 = 0 := by omega
    rw [h1, h2]
    omega

theorem SystemSleepTimes_wrapped_clock_witness :
    resetState.G_u32SystemTime1ms = 0 ∧ resetState.G_u32SystemTime1s = 0 ∧
    1500 < 2 ^ 32 ∧
    (SystemSleepTimes 1073741824 (3 * 2 ^ 32 + 1500) resetState).G_u32SystemTime1ms = 1500 ∧
    (SystemSleepTimes 1073741824 (3 * 2 ^ 32 + 1500) resetState).G_u32SystemTime1s =
      (3 * 4294968 + 1500 / 1000) % 2 ^ 32 :=
  ⟨rfl, rfl, by decide,
    (SystemSleepTimes_wrapped_clock 1073741824 3 1500 resetState rfl rfl (by decide)).1,
    (SystemSleepTimes_wrapped_clock 1073741824 3 1500 resetState rfl rfl (by decide)).2.1⟩

/-! ### The super loop and the SLEEPING flag -/

/-- C5: from every state at the top of the super loop, whatever the clock counters and
the flags (SLEEPING included), one pass of the loop returns, has run `SystemSleep`
exactly once (the do-while leaves after its first pass, for every positive bound on
its passes) and has advanced the millisecond counter by exactly 1 modulo 2^32. -/
theorem main_superLoopBody_sleeps_once (sl fuel : Nat) (st : System) (hsl : sl < 2 ^ 32) :
    main_sleepLoop sl (fuel + 1) (emit Event.HEARTBEAT_OFF (emit Event.WATCHDOG_BONE st)) =
      some (SystemSleep sl (emit Event.HEARTBEAT_OFF (emit Event.WATCHDOG_BONE st))) ∧
    ∃ st1, main_superLoopBody sl (fuel + 1) st = some st1 ∧
      sleepCount st1.trace = sleepCount st.trace + 1 ∧
      st1.G_u32SystemTime1ms = (st.G_u32SystemTime1ms + 1) % 2 ^ 32 := by
  norm_num at hsl ⊢
  refine ⟨main_sleepLoop_once sl fuel _ hsl, emit Event.HEARTBEAT_ON
    (SystemSleep sl (emit Event.HEARTBEAT_OFF (emit Event.WATCHDOG_BONE st))),
    main_superLoopBody_eq sl fuel st hsl, ?_, ?_⟩
  · rw [main_superLoopBody_trace, sleepCount_append]
    simp [sleepCount]
  · exact main_superLoopBody_time1ms sl st

theorem main_superLoopBody_sleeps_once_witness :
    1073741824 < 2 ^ 32 ∧
    sleepingState.G_u32SystemFlags &&& 1073741824 ≠ 0 ∧
    ∃ st1, main_superLoopBody 1073741824 1 sleepingState = some st1 ∧
      sleepCount st1.trace = sleepCount sleepingState.trace + 1 ∧
      st1.G_u32SystemTime1ms = (sleepingState.G_u32SystemTime1ms + 1) % 2 ^ 32 :=
  ⟨by decide, by decide,
    (main_superLoopBody_sleeps_once 1073741824 0 sleepingState (by decide)).2⟩

/-- C6: for `u32` flags `f` and mask `_SYSTEM_SLEEPING`, `SystemSleep` calls
`kill_x_cycles` exactly once, with the flags at `f OR _SYSTEM_SLEEPING`, and returns
with the flags at `f AND NOT _SYSTEM_SLEEPING`: the masked bits are clear and every
other bit of `f` is unchanged.  The LED globals and the output lines are untouched. -/
theorem SystemSleep_sleeping_window (sl : Nat) (st : System)
    (hf : st.G_u32SystemFlags < 2 ^ 32) (hsl : sl < 2 ^ 32) :
    (SystemSleep sl st).trace = st.trace ++
      [{ event := Event.kill_x_cycles 48000, time1ms := st.G_u32SystemTime1ms,
         time1s := st.G_u32SystemTime1s, flags := st.G_u32SystemFlags ||| sl }] ∧
    (SystemSleep sl st).G_u32SystemFlags = st.G_u32SystemFlags &&& u32Not sl ∧
    (SystemSleep sl st).G_u32SystemFlags &&& sl = 0 ∧
    (∀ i, sl.testBit i = false →
      (SystemSleep sl st).G_u32SystemFlags.testBit i = st.G_u32SystemFlags.testBit i) ∧
    (SystemSleep sl st).Led_StateMachine = st.Led_StateMachine ∧
    (SystemSleep sl st).Led_asControl = st.Led_asControl ∧
    (SystemSleep sl st).outputLines = st.outputLines := by
  norm_num at hf hsl
  refine ⟨SystemSleep_trace sl st, ?_, ?_, ?_, SystemSleep_frame sl st⟩
  · rw [SystemSleep_flags, or_and_u32Not _ _ hsl]
  · rw [SystemSleep_flags]
    exact or_and_u32Not_and _ _ hsl
  · intro i hi
    rw [SystemSleep_flags, or_and_u32Not _ _ hsl]
    exact testBit_and_u32Not _ _ i hf hi

theorem SystemSleep_sleeping_window_witness :
    sleepingState.G_u32SystemFlags < 2 ^ 32 ∧ 1073741824 < 2 ^ 32 ∧
    (SystemSleep 1073741824 sleepingState).G_u32SystemFlags =
      sleepingState.G_u32SystemFlags &&& u32Not 1073741824 ∧
    (SystemSleep 1073741824 sleepingState).G_u32SystemFlags &&& 1073741824 = 0 :=
  ⟨by decide, by decide,
    (SystemSleep_sleeping_window 1073741824 sleepingState (by decide) (by decide)).2.1,
    (SystemSleep_sleeping_window 1073741824 sleepingState (by decide) (by decide)).2.2.1⟩

/-- C9: every pass of the super loop returns and performs, in this order and nothing
else, `WATCHDOG_BONE` (once, first), `HEARTBEAT_OFF`, the sleep step (one
`kill_x_cycles`, after which the clock has advanced) and `HEARTBEAT_ON`; the first
three see the clock of the start of the pass and `HEARTBEAT_ON` sees the advanced
clock.  Over the first `n` passes the watchdog is fed `n` times, at millisecond
counter values `ms, ms + 1, ..., ms + n - 1` (mod 2^32): one tick between two
consecutive feeds. -/
theorem main_superLoop_order (sl fuel n : Nat) (st : System) (hsl : sl < 2 ^ 32)
    (hms : st.G_u32SystemTime1ms < 2 ^ 32) :
    (∃ st1, main_superLoopBody sl (fuel + 1) st = some st1 ∧
      st1.trace = st.trace ++
        [{ event := Event.WATCHDOG_BONE, time1ms := st.G_u32SystemTime1ms,
           time1s := st.G_u32SystemTime1s, flags := st.G_u32SystemFlags },
         { event := Event.HEARTBEAT_OFF, time1ms := st.G_u32SystemTime1ms,
           time1s := st.G_u32SystemTime1s, flags := st.G_u32SystemFlags },
         { event := Event.kill_x_cycles 48000, time1ms := st.G_u32SystemTime1ms,
           time1s := st.G_u32SystemTime1s, flags := st.G_u32SystemFlags ||| sl },
         { event := Event.HEARTBEAT_ON,
           time1ms := (st.G_u32SystemTime1ms + 1) % 2 ^ 32,
           time1s := (SystemSleep sl st).G_u32SystemTime1s,
           flags := (SystemSleep sl st).G_u32SystemFlags }]) ∧
    (∃ stn, main_superLoop sl (fuel + 1) n st = some stn ∧
      stn.G_u32SystemTime1ms = (st.G_u32SystemTime1ms + n) % 2 ^ 32 ∧
      feedTimes stn.trace = feedTimes st.trace ++
        (List.range n).map (fun k => (st.G_u32SystemTime1ms + k) % 2 ^ 32)) := by
  norm_num at hsl hms ⊢
  constructor
  · refine ⟨emit Event.HEARTBEAT_ON
      (SystemSleep sl (emit Event.HEARTBEAT_OFF (emit Event.WATCHDOG_BONE st))),
      main_superLoopBody_eq sl fuel st hsl, ?_⟩
    rw [main_superLoopBody_trace, SystemSleep_time1ms]
  · obtain ⟨stn, h1, h2, h3, _⟩ := main_superLoop_run sl fuel n st hsl hms
    exact ⟨stn, h1, h2, h3⟩

theorem main_superLoop_order_witness :
    1073741824 < 2 ^ 32 ∧ sleepingState.G_u32SystemTime1ms < 2 ^ 32 ∧
    (∃ stn, main_superLoop 1073741824 1 3 sleepingState = some stn ∧
      stn.G_u32SystemTime1ms = (sleepingState.G_u32SystemTime1ms + 3) % 2 ^ 32 ∧
      feedTimes stn.trace = feedTimes sleepingState.trace ++
        (List.range 3).map (fun k => (sleepingState.G_u32SystemTime1ms + k) % 2 ^ 32)) :=
  ⟨by decide, by decide,
    (main_superLoop_order 1073741824 0 3 sleepingState (by decide) (by decide)).2⟩

/-! ### The LED driver -/

/-- C3: for every valid LED index, either polarity and every prior control state,
`LedOn` leaves the channel in `LED_NORMAL_MODE` and the LED lit: the lines after
the call are the lines before it with the configured bit position stored to
`PIO_SODR` of the configured port (active-high) or to `PIO_CODR` of that port
(active-low), and they are at the level at which the LED is on. -/
theorem LedOn_turns_on (total : Nat) (cfgs : Nat → LedConfigurationType) (id : Nat)
    (st : System) (hid : id < total) (hu8 : total ≤ 255) :
    ((LedOn cfgs id st).Led_asControl id).eMode = LedModeType.LED_NORMAL_MODE ∧
    ledIsOn (cfgs id) (LedOn cfgs id st).outputLines ∧
    ((cfgs id).eActiveState = LedActiveType.LED_ACTIVE_HIGH →
      (LedOn cfgs id st).outputLines =
        storeU32 { register := PioRegister.PIO_SODR, portOffset := (cfgs id).ePort }
          (cfgs id).u32BitPosition st.outputLines) ∧
    ((cfgs id).eActiveState = LedActiveType.LED_ACTIVE_LOW →
      (LedOn cfgs id st).outputLines =
        storeU32 { register := PioRegister.PIO_CODR, portOffset := (cfgs id).ePort }
          (cfgs id).u32BitPosition st.outputLines) := by
  have hmod : id % 256 = id := Nat.mod_eq_of_lt (by omega)
  rw [LedOn_asControl, LedOn_outputLines, hmod, setElem_same]
  refine ⟨rfl, ?_, ?_, ?_⟩
  · unfold ledIsOn LedOn_address storeU32
    cases h : (cfgs id).eActiveState
    · simp [clear_and_self]
    · simp [or_and_self]
  · intro h
    simp [LedOn_address, h]
  · intro h
    simp [LedOn_address, h]

theorem LedOn_turns_on_witness :
    (0 : Nat) < 11 ∧ 11 ≤ 255 ∧
    (blinkingState.Led_asControl 0).eMode = LedModeType.LED_BLINK_MODE ∧
    ((LedOn exampleConfigurations 0 blinkingState).Led_asControl 0).eMode =
      LedModeType.LED_NORMAL_MODE ∧
    ledIsOn (exampleConfigurations 0) (LedOn exampleConfigurations 0 blinkingState).outputLines :=
  ⟨by decide, by decide, rfl,
    (LedOn_turns_on 11 exampleConfigurations 0 blinkingState (by decide) (by decide)).1,
    (LedOn_turns_on 11 exampleConfigurations 0 blinkingState (by decide) (by decide)).2.1⟩

/-- C4: for a `u8` channel count, every prior control array and every prior value of
the state machine, `LedInitialize` returns (within `U8_TOTAL_LEDS + 1` tests of its
loop condition) and leaves every channel `i < U8_TOTAL_LEDS` with mode
`LED_NORMAL_MODE`, rate `LED_0HZ` and count 0, and the state machine at `LedSM_Idle`,
not `LedSM_Error`. -/
theorem LedInitialize_resets (total fuel : Nat) (st : System) (htotal : total ≤ 255)
    (hfuel : total < fuel) :
    ∃ st1, LedInitialize total fuel st = some st1 ∧
      (∀ i, i < total →
        (st1.Led_asControl i).eMode = LedModeType.LED_NORMAL_MODE ∧
        (st1.Led_asControl i).eRate = LED_0HZ ∧
        (st1.Led_asControl i).u16Count = 0) ∧
      st1.Led_StateMachine = some LedStateType.LedSM_Idle ∧
      st1.Led_StateMachine ≠ some LedStateType.LedSM_Error := by
  have hloop := LedInitialize_loop_spec total htotal total fuel 0 st.Led_asControl
    (by omega) hfuel
  unfold LedInitialize
  rw [hloop]
  refine ⟨_, rfl, ?_, ?_, ?_⟩
  · intro i hi
    have h : 0 ≤ i ∧ i < total := ⟨Nat.zero_le i, hi⟩
    show (if 0 ≤ i ∧ i < total then _ else _ : LedControlType).eMode = _ ∧
      (if 0 ≤ i ∧ i < total then _ else _ : LedControlType).eRate = _ ∧
      (if 0 ≤ i ∧ i < total then _ else _ : LedControlType).u16Count = _
    rw [if_pos h]
    exact ⟨rfl, rfl, rfl⟩
  · simp
  · simp

theorem LedInitialize_resets_witness :
    (11 : Nat) ≤ 255 ∧ (11 : Nat) < 12 ∧
    ∃ st1, LedInitialize 11 12
        { blinkingState with Led_StateMachine := some LedStateType.LedSM_Error } = some st1 ∧
      (∀ i, i < 11 →
        (st1.Led_asControl i).eMode = LedModeType.LED_NORMAL_MODE ∧
        (st1.Led_asControl i).eRate = LED_0HZ ∧
        (st1.Led_asControl i).u16Count = 0) ∧
      st1.Led_StateMachine = some LedStateType.LedSM_Idle ∧
      st1.Led_StateMachine ≠ some LedStateType.LedSM_Error :=
  ⟨by decide, by decide,
    LedInitialize_resets 11 12
      { blinkingState with Led_StateMachine := some LedStateType.LedSM_Error }
      (by decide) (by decide)⟩

/-- C8: for every valid LED index and every prior state, `LedOn` makes one store,
of the configured bit position to a register of the configured port: the lines of
every other port and every line of that port outside the bit position keep their
level.  It keeps the rate and the count of the channel, the control record of every
other channel, the state machine, the clock counters and the flags, and it makes no
other observable action.  Calling it twice gives the state of calling it once. -/
theorem LedOn_frame (total : Nat) (cfgs : Nat → LedConfigurationType) (id : Nat)
    (st : System) (hid : id < total) (hu8 : total ≤ 255) :
    (LedOn cfgs id st).outputLines =
      storeU32 (LedOn_address (cfgs id)) (cfgs id).u32BitPosition st.outputLines ∧
    (LedOn_address (cfgs id)).portOffset = (cfgs id).ePort ∧
    (∀ p, p ≠ (cfgs id).ePort → (LedOn cfgs id st).outputLines p = st.outputLines p) ∧
    (∀ i, (cfgs id).u32BitPosition.testBit i = false →
      ((LedOn cfgs id st).outputLines (cfgs id).ePort).testBit i =
        (st.outputLines (cfgs id).ePort).testBit i) ∧
    ((LedOn cfgs id st).Led_asControl id).eRate = (st.Led_asControl id).eRate ∧
    ((LedOn cfgs id st).Led_asControl id).u16Count = (st.Led_asControl id).u16Count ∧
    (∀ j, j ≠ id → (LedOn cfgs id st).Led_asControl j = st.Led_asControl j) ∧
    (LedOn cfgs id st).Led_StateMachine = st.Led_StateMachine ∧
    (LedOn cfgs id st).G_u32SystemTime1ms = st.G_u32SystemTime1ms ∧
    (LedOn cfgs id st).G_u32SystemTime1s = st.G_u32SystemTime1s ∧
    (LedOn cfgs id st).G_u32SystemFlags = st.G_u32SystemFlags ∧
    (LedOn cfgs id st).trace = st.trace ∧
    LedOn cfgs id (LedOn cfgs id st) = LedOn cfgs id st := by
  have hmod : id % 256 = id := Nat.mod_eq_of_lt (by omega)
  have hport := LedOn_address_portOffset (cfgs id)
  rw [LedOn_asControl, LedOn_outputLines, hmod, setElem_same]
  refine ⟨rfl, hport, ?_, ?_, rfl, rfl, ?_, rfl, rfl, rfl, rfl, rfl, LedOn_twice cfgs id st⟩
  · intro p hp
    exact storeU32_other _ _ _ p (by rw [hport]; exact hp)
  · intro i hi
    rw [← hport]
    exact storeU32_testBit _ _ _ i hi
  · intro j hj
    exact setElem_other _ _ _ _ hj

theorem LedOn_frame_witness :
    (1 : Nat) < 11 ∧ 11 ≤ 255 ∧
    ((LedOn exampleConfigurations 1 blinkingState).Led_asControl 1).u16Count = 7 ∧
    LedOn exampleConfigurations 1 (LedOn exampleConfigurations 1 blinkingState) =
      LedOn exampleConfigurations 1 blinkingState :=
  ⟨by decide, by decide,
    (LedOn_frame 11 exampleConfigurations 1 blinkingState (by decide) (by decide)).2.2.2.2.2.1,
    (LedOn_frame 11 exampleConfigurations 1 blinkingState
      (by decide) (by decide)).2.2.2.2.2.2.2.2.2.2.2.2⟩

end EiE
